import Mathlib

/-!
Verification of the greenai reconciliation pipeline: a shallow embedding of
the difference engine (`src/backend/diff_engine.py`), the attribution engine
(`src/backend/attribution_engine.py`) and the review-workflow endpoint
(`src/bff/routers/workflow.py`), together with theorems settling the
specification claims.

Numbers flowing through the pipeline are decimal strings; they are modelled
exactly as rationals (`ℚ`).  Database values that may be NULL are modelled as
`Option String`.
-/

namespace GreenAI

attribute [local semireducible] Rat.mul Rat.inv Rat.add Rat.sub Rat.ofScientific

/-! ## Decimal parsing (model of Python `float(...)` on plain decimal strings) -/

/-- Value of a decimal digit list read most-significant first. -/
def digitsToNat (cs : List Char) : ℕ :=
  cs.foldl (fun a c => 10 * a + (c.toNat - 48)) 0

/-- Parse a plain decimal string: optional sign, integer digits, optional
fractional part.  Models Python `float(s)` on the decimal-literal inputs the
pipeline handles; strings outside this grammar parse to `none` (in the source,
`float` raises and the caller treats the value as non-numeric). -/
def parseDec? (s : String) : Option ℚ :=
  let cs := s.toList
  let signed : ℚ × List Char :=
    match cs with
    | '-' :: r => (-1, r)
    | '+' :: r => (1, r)
    | r => (1, r)
  let sgn := signed.1
  let body := signed.2
  let ip := body.takeWhile (fun c => c ≠ '.')
  match body.dropWhile (fun c => c ≠ '.') with
  | [] =>
    if ip ≠ [] ∧ ip.all Char.isDigit then some (sgn * digitsToNat ip) else none
  | '.' :: fp =>
    if (ip ≠ [] ∨ fp ≠ []) ∧ ip.all Char.isDigit ∧ fp.all Char.isDigit
    then some (sgn * ((digitsToNat ip : ℚ) + (digitsToNat fp : ℚ) / 10 ^ fp.length))
    else none
  | _ :: _ => none

/-! ## Attribution engine (`src/backend/attribution_engine.py`) -/

/-- `CONFIDENCE_THRESHOLD = 0.85`: below this an attribution is flagged UNKNOWN. -/
def CONFIDENCE_THRESHOLD : ℚ := 85 / 100

/-- One row of `recon.data_differences` as fed to `AttributionModel.predict`
(the id columns play no role in prediction). -/
structure DiffRecord where
  diff_type : String
  value_a : Option String
  value_b : Option String
deriving DecidableEq, Repr

/-- `float(val) if val else 0.0` under `try`: a falsy value (`None` or the
empty string) becomes `0.0`; otherwise the string is parsed, and a parse
failure is the raised exception that aborts the numeric heuristics. -/
def pyFloatOrZero : Option String → Option ℚ
  | none => some 0
  | some s => if s = "" then some 0 else parseDec? s

/-- `str(val).replace(".", "").replace(",", "").strip()`. -/
def normalizeStr (s : String) : String :=
  let noPunct := (s.toList.filter (fun c => c ≠ '.' ∧ c ≠ ','))
  String.mk (((noPunct.dropWhile Char.isWhitespace).reverse.dropWhile
    Char.isWhitespace).reverse)

/-- The `try` block of heuristics A and B (`predict` lines 99-116): `none`
models both "no heuristic matched" and the swallowed conversion exception.
`pct_diff = delta / va if va != 0 else 0` divides by the signed `va`. -/
def numericHeuristic (m : String → Option ℤ) (val_a val_b : Option String) :
    Option (Option ℤ × ℚ) :=
  match pyFloatOrZero val_a, pyFloatOrZero val_b with
  | some va, some vb =>
    let delta := |va - vb|
    if delta < 2 / 100 then some (m "ROUNDING_DIFF", 98 / 100)
    else
      let pct := if va = 0 then 0 else delta / va
      if 5 / 1000 < pct ∧ pct < 3 / 100 then some (m "FX_VARIANCE", 88 / 100)
      else none
  | _, _ => none

/-- `AttributionModel.predict`: ordered, first-match-wins rule cascade
returning `(reason_id, confidence_score)`.  The reason-code lookup
(`reason_map.get`) is the function argument `m`. -/
def predict (m : String → Option ℤ) (r : DiffRecord) : Option ℤ × ℚ :=
  if r.diff_type = "MISSING_IN_SOURCE_A" then (m "MISSING_SOURCE_A", 1)
  else if r.diff_type = "MISSING_IN_SOURCE_B" then (m "MISSING_SOURCE_B", 1)
  else if r.diff_type = "TYPE_MISMATCH" then (m "DATA_TYPE_MISMATCH", 1)
  else
    let numeric : Option (Option ℤ × ℚ) :=
      if r.diff_type = "NUMERIC_MISMATCH" then
        numericHeuristic m r.value_a r.value_b
      else none
    match numeric with
    | some res => res
    | none =>
      if r.diff_type = "STRING_MISMATCH" then
        match r.value_a, r.value_b with
        | some sa, some sb =>
          if sa ≠ "" ∧ sb ≠ "" then
            if normalizeStr sa = normalizeStr sb then (m "MANUAL_ENTRY_ERR", 9 / 10)
            else (m "UNKNOWN", 0)
          else (m "UNKNOWN", 0)
        | _, _ => (m "UNKNOWN", 0)
      else (m "UNKNOWN", 0)

/-- A row inserted into `recon.attributions` by `run_attribution_engine`. -/
structure NewAttribution where
  reason_id : Option ℤ
  confidence_score : ℚ
  status : String
deriving DecidableEq, Repr

/-- The per-difference body of `run_attribution_engine`'s predict loop:
classify, then derive the initial status from the confidence threshold. -/
def attributeDiff (m : String → Option ℤ) (r : DiffRecord) : NewAttribution :=
  let p := predict m r
  { reason_id := p.1
    confidence_score := p.2
    status := if p.2 ≥ CONFIDENCE_THRESHOLD then "ACCEPTED" else "UNKNOWN" }

/-! ## Difference engine (`src/backend/diff_engine.py`) -/

/-- `NUMERIC_TOLERANCE = 0.005`: differences smaller than this are ignored. -/
def NUMERIC_TOLERANCE : ℚ := 5 / 1000

/-- The difference dict built by `compare_values` (keys `field`, `val_a`,
`val_b`, `type`). -/
structure CompareResult where
  field : String
  val_a : Option String
  val_b : Option String
  type : String
deriving DecidableEq, Repr

/-- `compare_values(field, val_a, val_b)`: nulls first, then numeric
comparison within tolerance, then exact string comparison. -/
def compare_values (field : String) (val_a val_b : Option String) :
    Option CompareResult :=
  match val_a, val_b with
  | none, none => none
  | none, some b => some ⟨field, none, some b, "NULL_MISMATCH"⟩
  | some a, none => some ⟨field, some a, none, "NULL_MISMATCH"⟩
  | some a, some b =>
    match parseDec? a, parseDec? b with
    | some fa, some fb =>
      if |fa - fb| > NUMERIC_TOLERANCE then
        some ⟨field, some a, some b, "NUMERIC_MISMATCH"⟩
      else none
    | _, _ =>
      if a ≠ b then some ⟨field, some a, some b, "STRING_MISMATCH"⟩ else none

/-- A row of `recon.recon_records` as consumed by `process_record`.  A JSONB
field map is an association list; a `none` value is a JSON null. -/
structure ReconRecord where
  source_a_ref_id : Option String
  source_b_ref_id : Option String
  normalized_data_a : List (String × Option String)
  normalized_data_b : List (String × Option String)
deriving DecidableEq, Repr

/-- Python truthiness test `not ref_id` on an optional string: true for
`None` and for the empty string. -/
def falsy : Option String → Bool
  | none => true
  | some s => s = ""

/-- `data.get(key)`: `None` both when the key is absent and when the stored
value is null. -/
def pyGet (d : List (String × Option String)) (k : String) : Option String :=
  match d.find? (fun p => p.1 = k) with
  | some p => p.2
  | none => none

/-- The key set `set(data_a.keys()) | set(data_b.keys())`, enumerated in
first-occurrence order.  Python iterates this set in an unspecified
hash-dependent order; theorems that depend on the order quantify over
permutations of this list instead. -/
def unionKeys (da db : List (String × Option String)) : List String :=
  (da.map Prod.fst ++ db.map Prod.fst).dedup

/-- A difference dict as inserted into `recon.data_differences`. -/
structure DiffItem where
  field_name : String
  value_a : Option String
  value_b : Option String
  diff_type : String
deriving DecidableEq, Repr

/-- `process_record`, with the iteration order of the field-name set made
explicit as the `keys` argument. -/
def process_record_withKeys (keys : List String) (rec : ReconRecord) :
    List DiffItem :=
  if falsy rec.source_a_ref_id then
    [⟨"ENTIRE_RECORD", none, some "EXISTS", "MISSING_IN_SOURCE_A"⟩]
  else if falsy rec.source_b_ref_id then
    [⟨"ENTIRE_RECORD", some "EXISTS", none, "MISSING_IN_SOURCE_B"⟩]
  else
    keys.filterMap (fun k =>
      (compare_values k (pyGet rec.normalized_data_a k)
          (pyGet rec.normalized_data_b k)).map
        (fun r => ⟨r.field, r.val_a, r.val_b, r.type⟩))

/-- `process_record(record)`: missing-record detection, then field-by-field
comparison over the union of keys. -/
def process_record (rec : ReconRecord) : List DiffItem :=
  process_record_withKeys
    (unionKeys rec.normalized_data_a rec.normalized_data_b) rec

/-- Substring containment on character lists (Python's `pat in s`). -/
def seqContains (pat : List Char) : List Char → Bool
  | [] => pat.isEmpty
  | c :: t => pat.isPrefixOf (c :: t) || seqContains pat t

/-- Severity assigned by `run_difference_engine` on insert:
`"HIGH" if "MISSING" in diff_type else "MEDIUM"`. -/
def severityOf (diff_type : String) : String :=
  if seqContains "MISSING".toList diff_type.toList then "HIGH" else "MEDIUM"

/-! ## Review workflow (`src/bff/routers/workflow.py`, `src/bff/schemas.py`) -/

/-- `ActionType` enum: the request schema admits exactly these two actions. -/
inductive Action where
  | APPROVE
  | OVERRIDE
deriving DecidableEq, Repr

/-- The columns of a `recon.attributions` row touched or read by `resolve`.
Timestamps are abstract instants (`ℕ`). -/
structure Attribution where
  status : String
  reason_id : Option ℤ
  confidence_score : ℚ
  assigned_by : String
  assigned_at : ℕ
deriving DecidableEq, Repr

/-- A `recon.audit_trail` row as written by `resolve`. -/
structure AuditEntry where
  attribution_id : String
  actor_id : String
  action_type : Action
  comments : Option String
  previous_value : String
deriving DecidableEq, Repr

/-- The JSON snapshot string `resolve` stores in `previous_value`:
`f'\x7b"status": "{...}", "reason_id": {...}\x7d'` (Python renders a NULL
reason as `None`). -/
def prevSnapshot (status : String) (reason_id : Option ℤ) : String :=
  "\x7b\"status\": \"" ++ status ++ "\", \"reason_id\": " ++
    (match reason_id with | none => "None" | some n => toString n) ++ "\x7d"

/-- `ResolveRequest` payload. -/
structure ResolveRequest where
  attribution_id : String
  action : Action
  new_reason_code : Option String
  comments : Option String
  actor_id : String
deriving DecidableEq, Repr

/-- The database state visible to the workflow router: attributions keyed by
id, the static reason-code lookup, and the append-only audit trail. -/
structure WorkflowDB where
  attributions : List (String × Attribution)
  reason_codes : List (String × ℤ)
  audit_trail : List AuditEntry
deriving DecidableEq, Repr

/-- `SELECT ... WHERE key = k LIMIT 1` over an association list. -/
def lookupKV {α : Type} (l : List (String × α)) (k : String) : Option α :=
  (l.find? (fun p => p.1 = k)).map Prod.snd

/-- `UPDATE ... WHERE attribution_id = k`. -/
def updateKV (l : List (String × Attribution)) (k : String)
    (f : Attribution → Attribution) : List (String × Attribution) :=
  l.map (fun p => if p.1 = k then (p.1, f p.2) else p)

/-- `resolve_exception(payload)`: fetch current state (404 if absent); for
OVERRIDE resolve the replacement reason code (400 if missing or unknown);
then update the attribution row and append one audit-trail row, atomically
(single transaction, committed at the end).  Errors are `(status, detail)`
pairs of the raised `HTTPException`. -/
def resolve_exception (db : WorkflowDB) (p : ResolveRequest) (now : ℕ) :
    Except (ℕ × String) WorkflowDB :=
  match lookupKV db.attributions p.attribution_id with
  | none => .error (404, "Attribution record not found")
  | some current =>
    let new_status := "ACCEPTED"
    let reasonResult : Except (ℕ × String) (Option ℤ) :=
      match p.action with
      | .OVERRIDE =>
        match p.new_reason_code with
        | none => .error (400, "New reason code required for OVERRIDE")
        | some code =>
          if code = "" then .error (400, "New reason code required for OVERRIDE")
          else
            match lookupKV db.reason_codes code with
            | none => .error (400, "Invalid Reason Code provided")
            | some rid => .ok (some rid)
      | .APPROVE => .ok current.reason_id
    match reasonResult with
    | .error e => .error e
    | .ok new_reason_id =>
      .ok
        { db with
          attributions :=
            updateKV db.attributions p.attribution_id (fun a =>
              { a with
                status := new_status
                reason_id := new_reason_id
                assigned_by := p.actor_id
                assigned_at := now })
          audit_trail :=
            db.audit_trail ++
              [⟨p.attribution_id, p.actor_id, p.action, p.comments,
                prevSnapshot current.status current.reason_id⟩] }

/-- The database state after a `resolve` call: unchanged when the call was
rejected (the exception is raised before any write is committed). -/
def resolveState (db : WorkflowDB) (p : ResolveRequest) (now : ℕ) : WorkflowDB :=
  match resolve_exception db p now with
  | .ok db2 => db2
  | .error _ => db

/-! ## Concrete fixtures used to instantiate the theorems -/

/-- The reason-code lookup of the repository's unit tests. -/
def exampleReasonMap : String → Option ℤ := fun c =>
  if c = "MISSING_SOURCE_A" then some 1
  else if c = "MISSING_SOURCE_B" then some 2
  else if c = "ROUNDING_DIFF" then some 3
  else if c = "FX_VARIANCE" then some 4
  else if c = "MANUAL_ENTRY_ERR" then some 5
  else if c = "UNKNOWN" then some 99
  else none

/-- A workflow database holding one auto-accepted attribution. -/
def exampleDB : WorkflowDB :=
  { attributions := [("A1", ⟨"ACCEPTED", some 3, 1, "AI_ENGINE_V1", 0⟩)]
    reason_codes := [("FX_VARIANCE", 4), ("ROUNDING_DIFF", 3)]
    audit_trail := [] }

/-- An OVERRIDE request against the already-accepted attribution `A1`. -/
def overridePayload : ResolveRequest :=
  ⟨"A1", .OVERRIDE, some "FX_VARIANCE", some "manual fx check", "user1"⟩

/-- A workflow database holding one low-confidence pending attribution. -/
def pendingDB : WorkflowDB :=
  { attributions := [("A2", ⟨"UNKNOWN", some 99, 2 / 5, "AI_ENGINE_V1", 0⟩)]
    reason_codes := [("FX_VARIANCE", 4), ("ROUNDING_DIFF", 3)]
    audit_trail := [] }

/-- An APPROVE request against the pending attribution `A2`. -/
def approvePayload : ResolveRequest :=
  ⟨"A2", .APPROVE, none, some "looks fine", "carol"⟩

/-- A request against an attribution id that does not exist. -/
def p404 : ResolveRequest := ⟨"MISSING", .APPROVE, none, none, "dana"⟩

/-- An OVERRIDE request with no replacement reason code. -/
def pNoCode : ResolveRequest := ⟨"A1", .OVERRIDE, none, none, "dana"⟩

/-- An OVERRIDE request with a reason code absent from the lookup. -/
def pBadCode : ResolveRequest :=
  ⟨"A1", .OVERRIDE, some "NOT_A_CODE", none, "dana"⟩

/-- A record pair with two mismatching numeric fields. -/
def rec9 : ReconRecord :=
  ⟨some "x", some "y", [("b", some "1"), ("a", some "2")],
    [("b", some "3"), ("a", some "4")]⟩

/-- A record pair whose `amt` fields agree within the numeric tolerance. -/
def rec8close : ReconRecord :=
  ⟨some "r1", some "r2", [("amt", some "100.00")], [("amt", some "100.002")]⟩

/-- A record pair whose `amt` fields differ beyond the numeric tolerance. -/
def rec8far : ReconRecord :=
  ⟨some "r1", some "r2", [("amt", some "100.00")], [("amt", some "100.1")]⟩

end GreenAI

namespace GreenAI

attribute [local semireducible] Rat.mul Rat.inv Rat.add Rat.sub Rat.ofScientific

/-! ## Basic lemmas -/

theorem parseDec?_empty : parseDec? "" = none := by decide

theorem pyFloatOrZero_of_parse {s : String} {a : ℚ} (h : parseDec? s = some a) :
    pyFloatOrZero (some s) = some a := by
  unfold pyFloatOrZero
  by_cases hs : s = ""
  · subst hs; rw [parseDec?_empty] at h; exact absurd h (by simp)
  · simp [hs, h]

/-! ## Claims about the attribution engine -/

/-- On a `NUMERIC_MISMATCH` whose two values convert, `predict` is the
two-threshold cascade: rounding first, then the FX band, then fallback. -/
theorem predict_numeric_eq (m : String → Option ℤ) (va vb : Option String)
    (a b : ℚ) (hA : pyFloatOrZero va = some a) (hB : pyFloatOrZero vb = some b) :
    predict m ⟨"NUMERIC_MISMATCH", va, vb⟩ =
      if |a - b| < 2 / 100 then (m "ROUNDING_DIFF", 98 / 100)
      else if 5 / 1000 < (if a = 0 then 0 else |a - b| / a) ∧
          (if a = 0 then 0 else |a - b| / a) < 3 / 100 then
        (m "FX_VARIANCE", 88 / 100)
      else (m "UNKNOWN", 0) := by
  simp only [predict, numericHeuristic, hA, hB, String.reduceEq, reduceIte]
  split_ifs <;> rfl

/-- C2: for a `NUMERIC_MISMATCH` difference whose two values parse as
decimals with `|a-b| < 0.02`, `predict` returns `ROUNDING_DIFF` with
confidence 0.98 — unconditionally on the percentage delta, because the
rounding rule is evaluated before the FX-variance rule. -/
theorem C2_rounding_precedence (m : String → Option ℤ) (r : DiffRecord)
    (sa sb : String) (a b : ℚ)
    (hd : r.diff_type = "NUMERIC_MISMATCH")
    (hva : r.value_a = some sa) (hvb : r.value_b = some sb)
    (hpa : parseDec? sa = some a) (hpb : parseDec? sb = some b)
    (hdelta : |a - b| < 2 / 100) :
    predict m r = (m "ROUNDING_DIFF", 98 / 100) := by
  obtain ⟨dt, va, vb⟩ := r
  dsimp only at hd hva hvb
  subst hd hva hvb
  rw [predict_numeric_eq m (some sa) (some sb) a b
    (pyFloatOrZero_of_parse hpa) (pyFloatOrZero_of_parse hpb), if_pos hdelta]

/-- Witness for C2 at `value_a = "1.00"`, `value_b = "1.01"`: the delta 0.01
is below 0.02 and the percentage delta 0.01 also lies in the FX band
(0.005, 0.03), yet the result is `ROUNDING_DIFF` at 0.98. -/
theorem C2_rounding_precedence_witness :
    parseDec? "1.00" = some 1 ∧ parseDec? "1.01" = some (101 / 100) ∧
    |(1 : ℚ) - 101 / 100| < 2 / 100 ∧
    (5 / 1000 < |(1 : ℚ) - 101 / 100| / 1 ∧ |(1 : ℚ) - 101 / 100| / 1 < 3 / 100) ∧
    predict exampleReasonMap ⟨"NUMERIC_MISMATCH", some "1.00", some "1.01"⟩ =
      (exampleReasonMap "ROUNDING_DIFF", 98 / 100) :=
  ⟨by decide, by decide, by decide, by decide,
    C2_rounding_precedence exampleReasonMap
      ⟨"NUMERIC_MISMATCH", some "1.00", some "1.01"⟩ "1.00" "1.01" 1 (101 / 100)
      rfl rfl rfl (by decide) (by decide) (by decide)⟩

/-- The status field of `attributeDiff` against the threshold, both ways. -/
theorem attributeDiff_status_iff (m : String → Option ℤ) (r : DiffRecord) :
    ((attributeDiff m r).status = "ACCEPTED" ↔
      CONFIDENCE_THRESHOLD ≤ (attributeDiff m r).confidence_score) ∧
    ((attributeDiff m r).status = "UNKNOWN" ↔
      (attributeDiff m r).confidence_score < CONFIDENCE_THRESHOLD) := by
  unfold attributeDiff
  by_cases h : (predict m r).2 ≥ CONFIDENCE_THRESHOLD
  · simp [h]
  · simp [h, lt_of_not_ge h]

/-- C5: an Attribution created by the attribution engine starts `ACCEPTED`
exactly when its confidence reaches the 0.85 threshold, and `UNKNOWN`
exactly otherwise. -/
theorem C5_initial_status (m : String → Option ℤ) (r : DiffRecord) :
    ((attributeDiff m r).status = "ACCEPTED" ↔
      CONFIDENCE_THRESHOLD ≤ (attributeDiff m r).confidence_score) ∧
    ((attributeDiff m r).status = "UNKNOWN" ↔
      (attributeDiff m r).confidence_score < CONFIDENCE_THRESHOLD) :=
  attributeDiff_status_iff m r

/-- C6 counterexample: for `value_a = "-100"`, `value_b = "-101"` the delta
is 1 ≥ 0.02 and delta / |A| = 0.01 lies in the open FX band (0.005, 0.03),
yet `predict` does not return `FX_VARIANCE`: the source divides by the
signed value `va`, not by `|va|`, so the percentage is negative. -/
theorem C6_fx_band_counterexample :
    parseDec? "-100" = some (-100) ∧ parseDec? "-101" = some (-101) ∧
    (2 / 100 ≤ |(-100 : ℚ) - -101| ∧
      5 / 1000 < |(-100 : ℚ) - -101| / |(-100 : ℚ)| ∧
      |(-100 : ℚ) - -101| / |(-100 : ℚ)| < 3 / 100) ∧
    predict exampleReasonMap ⟨"NUMERIC_MISMATCH", some "-100", some "-101"⟩ =
      (exampleReasonMap "UNKNOWN", 0) ∧
    predict exampleReasonMap ⟨"NUMERIC_MISMATCH", some "-100", some "-101"⟩ ≠
      (exampleReasonMap "FX_VARIANCE", 88 / 100) := by
  refine ⟨by decide, by decide, by decide, by decide, by decide⟩

/-- C6 amended: for a `NUMERIC_MISMATCH` whose values parse with
`|a-b| ≥ 0.02`, `predict` returns `FX_VARIANCE` with confidence 0.88 exactly
when the percentage delta — computed as `delta / a` against the signed
side-A value, with `a = 0` treated as percentage 0 — lies in the open
interval (0.005, 0.03).  In particular the rule never fires for `a < 0`. -/
theorem C6_fx_band (m : String → Option ℤ) (r : DiffRecord)
    (sa sb : String) (a b : ℚ)
    (hd : r.diff_type = "NUMERIC_MISMATCH")
    (hva : r.value_a = some sa) (hvb : r.value_b = some sb)
    (hpa : parseDec? sa = some a) (hpb : parseDec? sb = some b)
    (hdelta : ¬ |a - b| < 2 / 100) :
    predict m r = (m "FX_VARIANCE", 88 / 100) ↔
      (5 / 1000 < (if a = 0 then 0 else |a - b| / a) ∧
        (if a = 0 then 0 else |a - b| / a) < 3 / 100) := by
  obtain ⟨dt, va, vb⟩ := r
  dsimp only at hd hva hvb
  subst hd hva hvb
  rw [predict_numeric_eq m (some sa) (some sb) a b
    (pyFloatOrZero_of_parse hpa) (pyFloatOrZero_of_parse hpb), if_neg hdelta]
  by_cases hband : 5 / 1000 < (if a = 0 then 0 else |a - b| / a) ∧
      (if a = 0 then 0 else |a - b| / a) < 3 / 100
  · rw [if_pos hband]
    exact iff_of_true rfl hband
  · rw [if_neg hband]
    refine iff_of_false (fun h => ?_) hband
    have h2 := congrArg Prod.snd h
    norm_num at h2

/-- Witness for C6 at `value_a = "100"`, `value_b = "101"`: delta 1 ≥ 0.02
and percentage 0.01 in the band, so the rule fires. -/
theorem C6_fx_band_witness :
    parseDec? "100" = some 100 ∧ parseDec? "101" = some 101 ∧
    ¬ |(100 : ℚ) - 101| < 2 / 100 ∧
    predict exampleReasonMap ⟨"NUMERIC_MISMATCH", some "100", some "101"⟩ =
      (exampleReasonMap "FX_VARIANCE", 88 / 100) :=
  ⟨by decide, by decide, by decide,
    (C6_fx_band exampleReasonMap ⟨"NUMERIC_MISMATCH", some "100", some "101"⟩
        "100" "101" 100 101 rfl rfl rfl (by decide) (by decide)
        (by decide)).mpr (by norm_num)⟩

/-- The numeric try-block yields no match, the rounding outcome, or the
FX-variance outcome. -/
theorem numericHeuristic_cases (m : String → Option ℤ)
    (va vb : Option String) :
    numericHeuristic m va vb = none ∨
    numericHeuristic m va vb = some (m "ROUNDING_DIFF", 98 / 100) ∨
    numericHeuristic m va vb = some (m "FX_VARIANCE", 88 / 100) := by
  unfold numericHeuristic
  dsimp only
  repeat' split
  all_goals tauto

/-- Every result of `predict` is one of the seven rule outcomes. -/
theorem predict_cases (m : String → Option ℤ) (r : DiffRecord) :
    predict m r = (m "MISSING_SOURCE_A", 1) ∨
    predict m r = (m "MISSING_SOURCE_B", 1) ∨
    predict m r = (m "DATA_TYPE_MISMATCH", 1) ∨
    predict m r = (m "ROUNDING_DIFF", 98 / 100) ∨
    predict m r = (m "FX_VARIANCE", 88 / 100) ∨
    predict m r = (m "MANUAL_ENTRY_ERR", 9 / 10) ∨
    predict m r = (m "UNKNOWN", 0) := by
  unfold predict
  split
  · tauto
  split
  · tauto
  split
  · tauto
  dsimp only
  by_cases hn : r.diff_type = "NUMERIC_MISMATCH"
  · simp only [hn, String.reduceEq, reduceIte]
    rcases numericHeuristic_cases m r.value_a r.value_b with h | h | h <;>
      simp only [h] <;> tauto
  · simp only [if_neg hn]
    repeat' split
    all_goals tauto

/-- C10: every confidence produced by `predict` lies in
{0, 0.88, 0.90, 0.98, 1}; the derived initial status is `UNKNOWN` exactly
when the confidence is 0, i.e. exactly when the fallback rule fired (which
also forces the reason to be the lookup of `UNKNOWN`); no rule yields a
confidence strictly between 0 and the 0.85 threshold. -/
theorem C10_confidence_values (m : String → Option ℤ) (r : DiffRecord) :
    ((predict m r).2 = 0 ∨ (predict m r).2 = 88 / 100 ∨
      (predict m r).2 = 9 / 10 ∨ (predict m r).2 = 98 / 100 ∨
      (predict m r).2 = 1) ∧
    ((attributeDiff m r).status = "UNKNOWN" ↔ (predict m r).2 = 0) ∧
    ((predict m r).2 = 0 → (predict m r).1 = m "UNKNOWN") := by
  have hs := (attributeDiff_status_iff m r).2
  have hc : (attributeDiff m r).confidence_score = (predict m r).2 := rfl
  rw [hc] at hs
  rcases predict_cases m r with h | h | h | h | h | h | h <;>
    rw [h] <;> rw [h] at hs <;>
    refine ⟨by norm_num, ?_, by simp⟩ <;>
    rw [hs] <;>
    norm_num [CONFIDENCE_THRESHOLD]

/-! ## Claims about the difference engine -/

/-- C7: a record pair whose side-A reference id is falsy produces exactly
the single whole-record `MISSING_IN_SOURCE_A` difference (severity `HIGH`),
with no field-level comparison, whatever the field maps contain; and
symmetrically for side B (side A present, per the data-model invariant that
at least one side exists). -/
theorem C7_missing_record (rec : ReconRecord) :
    (falsy rec.source_a_ref_id = true →
      process_record rec =
        [⟨"ENTIRE_RECORD", none, some "EXISTS", "MISSING_IN_SOURCE_A"⟩] ∧
      severityOf "MISSING_IN_SOURCE_A" = "HIGH") ∧
    (falsy rec.source_a_ref_id = false → falsy rec.source_b_ref_id = true →
      process_record rec =
        [⟨"ENTIRE_RECORD", some "EXISTS", none, "MISSING_IN_SOURCE_B"⟩] ∧
      severityOf "MISSING_IN_SOURCE_B" = "HIGH") := by
  constructor
  · intro hA
    exact ⟨by simp [process_record, process_record_withKeys, hA], by decide⟩
  · intro hA hB
    exact ⟨by simp [process_record, process_record_withKeys, hA, hB], by decide⟩

/-- Witness for C7: one record missing on side A, one missing on side B. -/
theorem C7_missing_record_witness :
    process_record ⟨none, some "b", [("f", some "1")], [("f", some "2")]⟩ =
      [⟨"ENTIRE_RECORD", none, some "EXISTS", "MISSING_IN_SOURCE_A"⟩] ∧
    process_record ⟨some "a", some "", [("f", some "1")], [("f", some "2")]⟩ =
      [⟨"ENTIRE_RECORD", some "EXISTS", none, "MISSING_IN_SOURCE_B"⟩] :=
  ⟨((C7_missing_record ⟨none, some "b", [("f", some "1")], [("f", some "2")]⟩).1
      (by decide)).1,
    ((C7_missing_record ⟨some "a", some "", [("f", some "1")], [("f", some "2")]⟩).2
      (by decide) (by decide)).1⟩

/-- Any difference dict produced by `compare_values` names the compared
field. -/
theorem compare_values_field {k : String} {va vb : Option String}
    {res : CompareResult} (h : compare_values k va vb = some res) :
    res.field = k := by
  unfold compare_values at h
  repeat' split at h
  all_goals cases h
  all_goals rfl

/-- Restricting a `filterMap` over keys to one field is the `filterMap`
over the occurrences of that key, provided the mapper tags results with
their key. -/
theorem filterMap_field_filter (F : String → Option DiffItem)
    (hF : ∀ k d, F k = some d → d.field_name = k) (k : String) :
    ∀ keys : List String,
      (keys.filterMap F).filter (fun d => d.field_name == k) =
        (keys.filter (fun x => x == k)).filterMap F := by
  intro keys
  induction keys with
  | nil => rfl
  | cons x keys ih =>
    cases hx : F x with
    | none =>
      simp only [List.filterMap_cons, hx, List.filter_cons]
      split_ifs with hxk
      · simp only [List.filterMap_cons, hx]
        exact ih
      · exact ih
    | some d =>
      have hd := hF x d hx
      simp only [List.filterMap_cons, hx, List.filter_cons]
      by_cases hxk : x = k
      · subst hxk
        simp only [hd, beq_self_eq_true, if_pos, List.filter_cons,
          List.filterMap_cons, hx]
        rw [ih]
      · have h1 : (d.field_name == k) = false := by
          rw [hd]; exact beq_eq_false_iff_ne.mpr hxk
        have h2 : (x == k) = false := beq_eq_false_iff_ne.mpr hxk
        simp only [h1, h2, Bool.false_eq_true, if_false]
        exact ih

/-- In a duplicate-free key list, filtering for a present key leaves
exactly that key. -/
theorem nodup_filter_eq {keys : List String} (h : keys.Nodup) {k : String}
    (hk : k ∈ keys) : keys.filter (fun x => x == k) = [k] := by
  induction keys with
  | nil => cases hk
  | cons x keys ih =>
    rw [List.filter_cons]
    rcases List.mem_cons.mp hk with rfl | hk2
    · have hx : k ∉ keys := (List.nodup_cons.mp h).1
      have hnil : keys.filter (fun y => y == k) = [] := by
        refine List.filter_eq_nil_iff.mpr (fun a ha => ?_)
        simp only [beq_iff_eq]
        intro heq
        exact hx (heq ▸ ha)
      simp [hnil]
    · have hxk : (x == k) = false := by
        refine beq_eq_false_iff_ne.mpr (fun heq => ?_)
        exact (List.nodup_cons.mp h).1 (heq ▸ hk2)
      simp only [hxk, Bool.false_eq_true, if_false]
      exact ih (List.nodup_cons.mp h).2 hk2

/-- A successful `data.get(key)` puts the key among the map's keys. -/
theorem pyGet_mem {d : List (String × Option String)} {k : String}
    {v : String} (h : pyGet d k = some v) : k ∈ d.map Prod.fst := by
  induction d with
  | nil => simp [pyGet] at h
  | cons p d ih =>
    by_cases hp : p.1 = k
    · simp only [List.map_cons, List.mem_cons]
      exact Or.inl hp.symm
    · have h2 : pyGet d k = some v := by
        unfold pyGet at h ⊢
        rwa [List.find?_cons_of_neg _ (by simp [hp])] at h
      simp only [List.map_cons, List.mem_cons]
      exact Or.inr (ih h2)

/-- `compare_values` on two values that both parse as decimals is governed
by the numeric tolerance alone. -/
theorem compare_values_numeric (k sa sb : String) (a b : ℚ)
    (hpa : parseDec? sa = some a) (hpb : parseDec? sb = some b) :
    compare_values k (some sa) (some sb) =
      if |a - b| > NUMERIC_TOLERANCE then
        some ⟨k, some sa, some sb, "NUMERIC_MISMATCH"⟩
      else none := by
  simp only [compare_values, hpa, hpb]

/-- The per-field slice of `process_record` on a record present on both
sides is the contribution of `compare_values` for that field. -/
theorem process_record_field (rec : ReconRecord) (k : String)
    (hA : falsy rec.source_a_ref_id = false)
    (hB : falsy rec.source_b_ref_id = false)
    (hk : k ∈ unionKeys rec.normalized_data_a rec.normalized_data_b) :
    (process_record rec).filter (fun d => d.field_name == k) =
      ((compare_values k (pyGet rec.normalized_data_a k)
          (pyGet rec.normalized_data_b k)).map
        (fun r => (⟨r.field, r.val_a, r.val_b, r.type⟩ : DiffItem))).toList := by
  have hF : ∀ k0 d,
      ((compare_values k0 (pyGet rec.normalized_data_a k0)
          (pyGet rec.normalized_data_b k0)).map
        (fun r => (⟨r.field, r.val_a, r.val_b, r.type⟩ : DiffItem))) = some d →
      d.field_name = k0 := by
    intro k0 d hd
    rcases Option.map_eq_some'.mp hd with ⟨r, hr, rfl⟩
    exact compare_values_field hr
  have hnodup :
      (unionKeys rec.normalized_data_a rec.normalized_data_b).Nodup := by
    unfold unionKeys
    exact List.nodup_dedup _
  unfold process_record process_record_withKeys
  rw [hA, hB]
  simp only [Bool.false_eq_true, if_false]
  rw [filterMap_field_filter _ hF k _, nodup_filter_eq hnodup hk]
  cases hc : compare_values k (pyGet rec.normalized_data_a k)
      (pyGet rec.normalized_data_b k) <;>
    simp [List.filterMap_cons, hc]

/-- C8: for a field whose two values both parse as decimals `a` and `b`
(on a record present on both sides), the Differ emits no Difference for
that field when `|a-b| ≤ 0.005`, and exactly one `NUMERIC_MISMATCH`
Difference for that field when `|a-b| > 0.005`. -/
theorem C8_numeric_tolerance (rec : ReconRecord) (k sa sb : String)
    (a b : ℚ)
    (hA : falsy rec.source_a_ref_id = false)
    (hB : falsy rec.source_b_ref_id = false)
    (hga : pyGet rec.normalized_data_a k = some sa)
    (hgb : pyGet rec.normalized_data_b k = some sb)
    (hpa : parseDec? sa = some a) (hpb : parseDec? sb = some b) :
    (|a - b| ≤ NUMERIC_TOLERANCE →
      compare_values k (some sa) (some sb) = none ∧
      (process_record rec).filter (fun d => d.field_name == k) = []) ∧
    (|a - b| > NUMERIC_TOLERANCE →
      compare_values k (some sa) (some sb) =
        some ⟨k, some sa, some sb, "NUMERIC_MISMATCH"⟩ ∧
      (process_record rec).filter (fun d => d.field_name == k) =
        [⟨k, some sa, some sb, "NUMERIC_MISMATCH"⟩]) := by
  have hk : k ∈ unionKeys rec.normalized_data_a rec.normalized_data_b := by
    unfold unionKeys
    exact List.mem_dedup.mpr (List.mem_append_left _ (pyGet_mem hga))
  have hslice := process_record_field rec k hA hB hk
  rw [hga, hgb] at hslice
  constructor
  · intro hle
    have hc : compare_values k (some sa) (some sb) = none := by
      rw [compare_values_numeric k sa sb a b hpa hpb, if_neg (not_lt.mpr hle)]
    exact ⟨hc, by rw [hslice, hc]; rfl⟩
  · intro hgt
    have hc : compare_values k (some sa) (some sb) =
        some ⟨k, some sa, some sb, "NUMERIC_MISMATCH"⟩ := by
      rw [compare_values_numeric k sa sb a b hpa hpb, if_pos hgt]
    exact ⟨hc, by rw [hslice, hc]; rfl⟩

/-- Witness for C8: `amt = "100.00"` vs `"100.002"` (delta 0.002) emits
nothing; `amt = "100.00"` vs `"100.1"` (delta 0.1) emits exactly one
`NUMERIC_MISMATCH`. -/
theorem C8_numeric_tolerance_witness :
    compare_values "amt" (some "100.00") (some "100.002") = none ∧
    (process_record rec8close).filter (fun d => d.field_name == "amt") = [] ∧
    compare_values "amt" (some "100.00") (some "100.1") =
      some ⟨"amt", some "100.00", some "100.1", "NUMERIC_MISMATCH"⟩ ∧
    (process_record rec8far).filter (fun d => d.field_name == "amt") =
      [⟨"amt", some "100.00", some "100.1", "NUMERIC_MISMATCH"⟩] := by
  have hclose := (C8_numeric_tolerance rec8close "amt" "100.00" "100.002"
    100 (50001 / 500) (by decide) (by decide) (by decide) (by decide)
    (by decide) (by decide)).1
    (by rw [show (100 : ℚ) - 50001 / 500 = -(1 / 500) by norm_num, abs_neg,
      abs_of_nonneg (by norm_num)]; norm_num [NUMERIC_TOLERANCE])
  have hfar := (C8_numeric_tolerance rec8far "amt" "100.00" "100.1"
    100 (1001 / 10) (by decide) (by decide) (by decide) (by decide)
    (by decide) (by decide)).2
    (by rw [show (100 : ℚ) - 1001 / 10 = -(1 / 10) by norm_num, abs_neg,
      abs_of_nonneg (by norm_num)]; norm_num [NUMERIC_TOLERANCE])
  exact ⟨hclose.1, hclose.2, hfar.1, hfar.2⟩

/-- C9 counterexample: both `["a","b"]` and `["b","a"]` are admissible
iteration orders of the unordered key-set union for this record pair (the
source iterates a Python `set`, with no sorting), and the two orders
produce different difference sequences. -/
theorem C9_counterexample :
    (["a", "b"] : List String).Perm
      (unionKeys rec9.normalized_data_a rec9.normalized_data_b) ∧
    (["b", "a"] : List String).Perm
      (unionKeys rec9.normalized_data_a rec9.normalized_data_b) ∧
    process_record_withKeys ["a", "b"] rec9 ≠
      process_record_withKeys ["b", "a"] rec9 := by
  exact ⟨by decide, by decide, by decide⟩

/-- C9 amended: the Differ is deterministic up to sequence order — for any
iteration order of the field-name set, the emitted Differences form the
same multiset (same field, type, values) as the canonical run, so re-runs
agree as sets; the sequence order itself is not fixed because no sorting is
applied. -/
theorem C9_deterministic_set (rec : ReconRecord) (keys : List String)
    (h : keys.Perm (unionKeys rec.normalized_data_a rec.normalized_data_b)) :
    (process_record_withKeys keys rec).Perm (process_record rec) := by
  unfold process_record process_record_withKeys
  by_cases hA : falsy rec.source_a_ref_id
  · simp [hA]
  · by_cases hB : falsy rec.source_b_ref_id
    · simp [hA, hB]
    · simp only [hA, hB, Bool.false_eq_true, if_false]
      exact h.filterMap _

/-- Witness for C9 amended: the reversed iteration order over `rec9` yields
a permutation of the canonical difference list. -/
theorem C9_deterministic_set_witness :
    (process_record_withKeys ["a", "b"] rec9).Perm (process_record rec9) :=
  C9_deterministic_set rec9 ["a", "b"] (by decide)

/-! ## Claims about the review workflow -/

/-- Looking up the updated key returns the updated row. -/
theorem lookupKV_updateKV (l : List (String × Attribution)) (k : String)
    (f : Attribution → Attribution) :
    lookupKV (updateKV l k f) k = (lookupKV l k).map f := by
  induction l with
  | nil => rfl
  | cons p l ih =>
    unfold updateKV lookupKV
    simp only [List.map_cons]
    by_cases hp : p.1 = k
    · rw [if_pos hp]
      rw [List.find?_cons_of_pos _ (by simp [hp]),
        List.find?_cons_of_pos _ (by simp [hp])]
      simp
    · rw [if_neg hp]
      rw [List.find?_cons_of_neg _ (by simp [hp]),
        List.find?_cons_of_neg _ (by simp [hp])]
      exact ih

/-- A rejected `resolve` call leaves the database untouched. -/
theorem resolveState_of_error {db : WorkflowDB} {p : ResolveRequest}
    {now : ℕ} {e : ℕ × String}
    (h : resolve_exception db p now = .error e) :
    resolveState db p now = db := by
  unfold resolveState
  rw [h]

/-- Characterization of a successful `resolve` call: some reason id was
selected (the current one under APPROVE, the freshly looked-up one under
OVERRIDE), the attribution row was rewritten with it, and exactly one
audit-trail row holding the prior snapshot was appended. -/
theorem resolve_ok_elim {db : WorkflowDB} {p : ResolveRequest} {now : ℕ}
    {cur : Attribution} {db2 : WorkflowDB}
    (hcur : lookupKV db.attributions p.attribution_id = some cur)
    (hok : resolve_exception db p now = .ok db2) :
    ∃ rid : Option ℤ,
      (p.action = .APPROVE → rid = cur.reason_id) ∧
      (∀ code r, p.action = .OVERRIDE → p.new_reason_code = some code →
        lookupKV db.reason_codes code = some r → rid = some r) ∧
      db2 = { db with
        attributions := updateKV db.attributions p.attribution_id (fun a =>
          { a with status := "ACCEPTED", reason_id := rid,
                   assigned_by := p.actor_id, assigned_at := now })
        audit_trail := db.audit_trail ++
          [⟨p.attribution_id, p.actor_id, p.action, p.comments,
            prevSnapshot cur.status cur.reason_id⟩] } := by
  unfold resolve_exception at hok
  rw [hcur] at hok
  cases hact : p.action with
  | APPROVE =>
    rw [hact] at hok
    dsimp only at hok
    refine ⟨cur.reason_id, fun _ => rfl, ?_, (Except.ok.inj hok).symm⟩
    intro code r hov _ _
    exact absurd hov (by decide)
  | OVERRIDE =>
    rw [hact] at hok
    cases hcode : p.new_reason_code with
    | none =>
      rw [hcode] at hok
      dsimp only at hok
      exact absurd hok (by simp)
    | some code =>
      rw [hcode] at hok
      dsimp only at hok
      by_cases hcempty : code = ""
      · rw [if_pos hcempty] at hok
        dsimp only at hok
        exact absurd hok (by simp)
      · rw [if_neg hcempty] at hok
        cases hr : lookupKV db.reason_codes code with
        | none =>
          rw [hr] at hok
          dsimp only at hok
          exact absurd hok (by simp)
        | some rid0 =>
          rw [hr] at hok
          dsimp only at hok
          refine ⟨some rid0, ?_, ?_, (Except.ok.inj hok).symm⟩
          · intro happ
            exact absurd happ (by decide)
          · intro code2 r2 _ hc2 hr2
            cases hc2
            rw [hr] at hr2
            cases hr2
            rfl

/-- C3: `resolve` rejects with a specific error and leaves the database
unchanged (no attribution mutation, no audit write) when the attribution id
does not exist (404), when an OVERRIDE supplies no replacement reason code
(400), and when an OVERRIDE supplies a reason code absent from the lookup
(400). -/
theorem C3_resolve_validation (db : WorkflowDB) (p : ResolveRequest)
    (now : ℕ) :
    (lookupKV db.attributions p.attribution_id = none →
      resolve_exception db p now =
        .error (404, "Attribution record not found") ∧
      resolveState db p now = db) ∧
    (∀ cur, lookupKV db.attributions p.attribution_id = some cur →
      p.action = .OVERRIDE →
      (p.new_reason_code = none ∨ p.new_reason_code = some "") →
      resolve_exception db p now =
        .error (400, "New reason code required for OVERRIDE") ∧
      resolveState db p now = db) ∧
    (∀ cur code, lookupKV db.attributions p.attribution_id = some cur →
      p.action = .OVERRIDE → p.new_reason_code = some code → code ≠ "" →
      lookupKV db.reason_codes code = none →
      resolve_exception db p now =
        .error (400, "Invalid Reason Code provided") ∧
      resolveState db p now = db) := by
  refine ⟨?_, ?_, ?_⟩
  · intro hnone
    have he : resolve_exception db p now =
        .error (404, "Attribution record not found") := by
      unfold resolve_exception
      rw [hnone]
    exact ⟨he, resolveState_of_error he⟩
  · intro cur hcur hov hcode
    have he : resolve_exception db p now =
        .error (400, "New reason code required for OVERRIDE") := by
      unfold resolve_exception
      rw [hcur, hov]
      rcases hcode with hc | hc <;> rw [hc]
      rfl
    exact ⟨he, resolveState_of_error he⟩
  · intro cur code hcur hov hcode hne hr
    have he : resolve_exception db p now =
        .error (400, "Invalid Reason Code provided") := by
      unfold resolve_exception
      rw [hcur, hov, hcode]
      dsimp only
      rw [if_neg hne, hr]
    exact ⟨he, resolveState_of_error he⟩

/-- Witness for C3: a missing id, an OVERRIDE without a code, and an
OVERRIDE with an unknown code, each rejected with its specific error and a
database left exactly as it was. -/
theorem C3_resolve_validation_witness :
    (resolve_exception exampleDB p404 3 =
        .error (404, "Attribution record not found") ∧
      resolveState exampleDB p404 3 = exampleDB) ∧
    (resolve_exception exampleDB pNoCode 3 =
        .error (400, "New reason code required for OVERRIDE") ∧
      resolveState exampleDB pNoCode 3 = exampleDB) ∧
    (resolve_exception exampleDB pBadCode 3 =
        .error (400, "Invalid Reason Code provided") ∧
      resolveState exampleDB pBadCode 3 = exampleDB) :=
  ⟨(C3_resolve_validation exampleDB p404 3).1 (by decide),
    (C3_resolve_validation exampleDB pNoCode 3).2.1
      ⟨"ACCEPTED", some 3, 1, "AI_ENGINE_V1", 0⟩ (by decide) rfl (Or.inl rfl),
    (C3_resolve_validation exampleDB pBadCode 3).2.2
      ⟨"ACCEPTED", some 3, 1, "AI_ENGINE_V1", 0⟩ "NOT_A_CODE" (by decide) rfl
      rfl (by decide) (by decide)⟩

/-- C4: every successful `resolve` appends exactly one AuditEntry whose
snapshot is the attribution's (status, reason) immediately before the call,
and an APPROVE leaves the reason unchanged, sets the status to `ACCEPTED`,
and records the actor and the timestamp. -/
theorem C4_resolve_audit (db : WorkflowDB) (p : ResolveRequest) (now : ℕ)
    (cur : Attribution) (db2 : WorkflowDB)
    (hcur : lookupKV db.attributions p.attribution_id = some cur)
    (hok : resolve_exception db p now = .ok db2) :
    db2.audit_trail = db.audit_trail ++
      [⟨p.attribution_id, p.actor_id, p.action, p.comments,
        prevSnapshot cur.status cur.reason_id⟩] ∧
    (p.action = .APPROVE →
      lookupKV db2.attributions p.attribution_id =
        some { cur with status := "ACCEPTED", assigned_by := p.actor_id,
                        assigned_at := now }) := by
  obtain ⟨rid, hApp, hOv, rfl⟩ := resolve_ok_elim hcur hok
  refine ⟨rfl, ?_⟩
  intro ha
  dsimp only
  rw [lookupKV_updateKV, hcur]
  simp [hApp ha]

/-- Witness for C4: approving the pending attribution `A2` (status UNKNOWN,
reason 99, confidence 0.4) appends one audit row with the prior snapshot
and rewrites the row to ACCEPTED with the actor and timestamp, reason
unchanged. -/
theorem C4_resolve_audit_witness :
    (resolveState pendingDB approvePayload 7).audit_trail =
      pendingDB.audit_trail ++
        [⟨"A2", "carol", .APPROVE, some "looks fine",
          prevSnapshot "UNKNOWN" (some 99)⟩] ∧
    lookupKV (resolveState pendingDB approvePayload 7).attributions "A2" =
      some ⟨"ACCEPTED", some 99, 2 / 5, "carol", 7⟩ := by
  have h := C4_resolve_audit pendingDB approvePayload 7
    ⟨"UNKNOWN", some 99, 2 / 5, "AI_ENGINE_V1", 0⟩
    (resolveState pendingDB approvePayload 7) (by decide)
    (by unfold resolveState; rfl)
  exact ⟨h.1, h.2 rfl⟩

/-- C1 counterexample: attribution `A1` is already `ACCEPTED`, yet an
OVERRIDE `resolve` call against it is accepted by the code: it appends an
AuditEntry and changes the stored reason — the handler never checks that
the current status is `UNKNOWN`. -/
theorem C1_accepted_terminal_counterexample :
    lookupKV exampleDB.attributions "A1" =
      some ⟨"ACCEPTED", some 3, 1, "AI_ENGINE_V1", 0⟩ ∧
    (resolveState exampleDB overridePayload 5).audit_trail ≠
      exampleDB.audit_trail ∧
    (lookupKV (resolveState exampleDB overridePayload 5).attributions
        "A1").map Attribution.reason_id ≠
      (lookupKV exampleDB.attributions "A1").map Attribution.reason_id :=
  ⟨by decide, by decide, by decide⟩

/-- C1 amended: `resolve` does not treat `ACCEPTED` as terminal — it never
inspects the current status.  A valid `resolve` against an `ACCEPTED`
Attribution succeeds: it appends one AuditEntry snapshotting the prior
`ACCEPTED` state, keeps the status `ACCEPTED` (rewriting actor and
timestamp), leaves the reason unchanged under APPROVE, and replaces the
reason under OVERRIDE. -/
theorem C1_resolve_ignores_status (db : WorkflowDB) (p : ResolveRequest)
    (now : ℕ) (cur : Attribution) (db2 : WorkflowDB)
    (hcur : lookupKV db.attributions p.attribution_id = some cur)
    (hacc : cur.status = "ACCEPTED")
    (hok : resolve_exception db p now = .ok db2) :
    db2.audit_trail = db.audit_trail ++
      [⟨p.attribution_id, p.actor_id, p.action, p.comments,
        prevSnapshot "ACCEPTED" cur.reason_id⟩] ∧
    (lookupKV db2.attributions p.attribution_id).map Attribution.status =
      some "ACCEPTED" ∧
    (p.action = .APPROVE →
      (lookupKV db2.attributions p.attribution_id).map Attribution.reason_id =
        some cur.reason_id) ∧
    (∀ code r, p.action = .OVERRIDE → p.new_reason_code = some code →
      lookupKV db.reason_codes code = some r →
      (lookupKV db2.attributions p.attribution_id).map Attribution.reason_id =
        some (some r)) := by
  obtain ⟨rid, hApp, hOv, rfl⟩ := resolve_ok_elim hcur hok
  refine ⟨by rw [← hacc], ?_, ?_, ?_⟩
  · dsimp only
    rw [lookupKV_updateKV, hcur]
    rfl
  · intro ha
    dsimp only
    rw [lookupKV_updateKV, hcur]
    simp [hApp ha]
  · intro code r hov hc hr
    dsimp only
    rw [lookupKV_updateKV, hcur]
    simp [hOv code r hov hc hr]

/-- Witness for C1 amended: overriding the already-ACCEPTED `A1` to
`FX_VARIANCE` appends the audit row with the prior `ACCEPTED` snapshot and
stores the new reason id 4. -/
theorem C1_resolve_ignores_status_witness :
    (resolveState exampleDB overridePayload 5).audit_trail =
      exampleDB.audit_trail ++
        [⟨"A1", "user1", .OVERRIDE, some "manual fx check",
          prevSnapshot "ACCEPTED" (some 3)⟩] ∧
    (lookupKV (resolveState exampleDB overridePayload 5).attributions
        "A1").map Attribution.reason_id = some (some 4) := by
  have h := C1_resolve_ignores_status exampleDB overridePayload 5
    ⟨"ACCEPTED", some 3, 1, "AI_ENGINE_V1", 0⟩
    (resolveState exampleDB overridePayload 5)
    (by decide) rfl (by unfold resolveState; rfl)
  exact ⟨h.1, h.2.2.2 "FX_VARIANCE" 4 rfl rfl (by decide)⟩

end GreenAI
